import Mathlib

/-!
Verification of the Shopee Story Maker single-page application
(`src/src/App.tsx`).  The file shallowly embeds the data model and the
operations of the component: pure computations (the WAV header builder,
the MIME-type probe, the animation branch selector, the frame-progress
arithmetic) become Lean functions, and the stateful handlers
(`handleMediaUpload`, `analyzeProduct`, `generateAudio`,
`startRecording`) become explicit transition functions on an `AppState`
record, parametrised by the outcomes of the external browser / AI calls
they await.
-/

namespace ShopeeStoryMaker

/-! ## JavaScript helpers

Small helpers mirroring JavaScript truthiness on strings, used by the
source in expressions such as `data.headline || ""` and
`productInfo.animationType || 'panning'`. -/

/-- JavaScript `x || dflt` for an optional string `x`: the default is
taken when `x` is `undefined` or the empty string. -/
def jsOrStr (x : Option String) (dflt : String) : String :=
  match x with
  | some v => if v = "" then dflt else v
  | none => dflt

/-- JavaScript falsiness of an optional string: `undefined` and `""` are
falsy, every other string is truthy. -/
def strFalsy : Option String → Bool
  | none => true
  | some v => v == ""

/-! ## Data model (component state of `App`) -/

inductive MediaType where
  | image
  | video
deriving DecidableEq

/-- The `mediaSource` state: an object URL plus the image/video tag
computed by `handleMediaUpload`. -/
structure MediaSource where
  url : String
  type : MediaType
deriving DecidableEq

/-- The `ProductInfo` interface.  The values are parsed from the model's
JSON reply (`JSON.parse(response.text || "{}")`), so at runtime every
field may be absent and `animationType` may hold any string; optional
fields model that. -/
structure ProductInfo where
  name : String
  description : String
  features : List String
  script : Option String
  headline : Option String
  animationType : Option String
deriving DecidableEq

inductive ScriptType where
  | auto
  | manual
deriving DecidableEq

inductive VoiceGender where
  | male
  | female
deriving DecidableEq

/-- The `useState` cells of the `App` component. -/
structure AppState where
  mediaSource : Option MediaSource
  userProductDescription : String
  manualHeadline : String
  manualScript : String
  activeScriptType : ScriptType
  voiceGender : VoiceGender
  isAnalyzing : Bool
  isGeneratingAudio : Bool
  isRecording : Bool
  productInfo : Option ProductInfo
  audioUrl : Option String
  videoBlobUrl : Option String
  error : Option String
  recordingProgress : ℚ
  useBackgroundMusic : Bool
deriving DecidableEq

/-! ## `handleMediaUpload` -/

/-- An uploaded `File`; only its MIME type (`file.type`) matters to the
handler. -/
structure UploadedFile where
  type : String
deriving DecidableEq

/-- `handleMediaUpload`: with a selected file, classify it by whether its
MIME type starts with `video/`, store the fresh object URL, and clear all
downstream results; with no file, do nothing. -/
def handleMediaUpload (s : AppState) (file : Option UploadedFile)
    (objectUrl : String) : AppState :=
  match file with
  | some f =>
      let t := if f.type.startsWith "video/" then MediaType.video else MediaType.image
      { s with mediaSource := some { url := objectUrl, type := t },
               productInfo := none,
               audioUrl := none,
               videoBlobUrl := none,
               error := none }
  | none => s

/-! ## `analyzeProduct` -/

/-- Outcome of the awaited vision-model call: either parsed product data
or a thrown error (whose optional `message` feeds the error text). -/
inductive AnalyzeOutcome where
  | success (data : ProductInfo)
  | failure (errMessage : Option String)
deriving DecidableEq

/-- `analyzeProduct`: return unchanged when no media is uploaded;
otherwise set the busy flag, clear the error, store the analysis result
(or the error message), and clear the busy flag in the `finally` block. -/
def analyzeProduct (s : AppState) (outcome : AnalyzeOutcome) : AppState :=
  if s.mediaSource = none then s
  else
    let s1 := { s with isAnalyzing := true, error := none }
    let s2 :=
      match outcome with
      | AnalyzeOutcome.success data =>
          { s1 with productInfo := some data,
                    manualHeadline := jsOrStr data.headline "",
                    manualScript := jsOrStr data.script "" }
      | AnalyzeOutcome.failure msg =>
          { s1 with error := some ("Erro na análise: " ++
              jsOrStr msg "Verifique sua GEMINI_API_KEY no Vercel.") }
    { s2 with isAnalyzing := false }

/-! ## `generateAudio` and the WAV header -/

/-- The script selected for narration:
`activeScriptType === 'auto' ? productInfo?.script : manualScript`. -/
def scriptToUse (s : AppState) : Option String :=
  match s.activeScriptType with
  | ScriptType.auto => s.productInfo.bind ProductInfo.script
  | ScriptType.manual => some s.manualScript

/-- Outcome of the awaited TTS call: a reply whose first part may or may
not carry inline base64 audio data, or a thrown error. -/
inductive AudioOutcome where
  | success (base64Audio : Option (List Nat))
  | failure
deriving DecidableEq

/-- `generateAudio`: return unchanged when the selected script is falsy;
otherwise set the busy flag, clear the error, store the fresh object URL
of the WAV blob when audio bytes arrived (set the error message on a
throw), and clear the busy flag in the `finally` block. -/
def generateAudio (s : AppState) (outcome : AudioOutcome)
    (objectUrl : String) : AppState :=
  if strFalsy (scriptToUse s) then s
  else
    let s1 := { s with isGeneratingAudio := true, error := none }
    let s2 :=
      match outcome with
      | AudioOutcome.success base64Audio =>
          match base64Audio with
          | some _ => { s1 with audioUrl := some objectUrl }
          | none => s1
      | AudioOutcome.failure =>
          { s1 with error := some "Erro ao gerar a narração." }
    { s2 with isGeneratingAudio := false }

/-- Bytes written by `DataView.setUint16(off, v, true)` (little-endian;
the value is stored modulo 2^16). -/
def u16le (v : Nat) : List Nat :=
  [v % 2 ^ 16 % 256, v % 2 ^ 16 / 256]

/-- Bytes written by `DataView.setUint32(off, v, true)` (little-endian;
the value is stored modulo 2^32). -/
def u32le (v : Nat) : List Nat :=
  [v % 2 ^ 32 % 256, v % 2 ^ 32 / 256 % 256,
   v % 2 ^ 32 / 2 ^ 16 % 256, v % 2 ^ 32 / 2 ^ 24]

/-- Bytes written by `DataView.setUint32(off, v, false)` (big-endian). -/
def u32be (v : Nat) : List Nat :=
  [v % 2 ^ 32 / 2 ^ 24, v % 2 ^ 32 / 2 ^ 16 % 256,
   v % 2 ^ 32 / 256 % 256, v % 2 ^ 32 % 256]

/-- The 44-byte WAV header that `generateAudio` writes in front of `n`
decoded audio bytes, as the sequence of `DataView` writes at offsets
0, 4, 8, 12, 16, 20, 22, 24, 28, 32, 34, 36, 40. -/
def wavHeader (n : Nat) : List Nat :=
  u32be 0x52494646 ++ u32le (36 + n) ++ u32be 0x57415645 ++
  u32be 0x666d7420 ++ u32le 16 ++ u16le 1 ++ u16le 1 ++
  u32le 24000 ++ u32le (24000 * 2) ++ u16le 2 ++ u16le 16 ++
  u32be 0x64617461 ++ u32le n

/-- The blob `new Blob([wavHeader, bytes])`: the header followed by the
decoded audio bytes. -/
def wavFile (data : List Nat) : List Nat :=
  wavHeader data.length ++ data

/-- Read a little-endian 16-bit value from a byte list. -/
def readU16LE (bs : List Nat) (i : Nat) : Nat :=
  bs.getD i 0 + bs.getD (i + 1) 0 * 256

/-- Read a little-endian 32-bit value from a byte list. -/
def readU32LE (bs : List Nat) (i : Nat) : Nat :=
  bs.getD i 0 + bs.getD (i + 1) 0 * 256 +
  bs.getD (i + 2) 0 * 2 ^ 16 + bs.getD (i + 3) 0 * 2 ^ 24

/-- Read a big-endian 32-bit value from a byte list. -/
def readU32BE (bs : List Nat) (i : Nat) : Nat :=
  bs.getD i 0 * 2 ^ 24 + bs.getD (i + 1) 0 * 2 ^ 16 +
  bs.getD (i + 2) 0 * 256 + bs.getD (i + 3) 0

/-! ## `startRecording`: MIME probe, audio graph, streams -/

/-- The ordered candidate list tried by `getSupportedMimeType`. -/
def mimeCandidates : List String :=
  ["video/webm;codecs=vp9,opus", "video/webm;codecs=vp8,opus",
   "video/webm", "video/mp4"]

/-- The `for (const type of types) ... return type` loop: the first
candidate accepted by the support predicate, or `""` when none is. -/
def firstSupported (sup : String → Bool) : List String → String
  | [] => ""
  | t :: ts => if sup t then t else firstSupported sup ts

/-- `getSupportedMimeType`, parametrised by the browser's
`MediaRecorder.isTypeSupported` predicate. -/
def getSupportedMimeType (sup : String → Bool) : String :=
  firstSupported sup mimeCandidates

/-- Kind of a `MediaStreamTrack`. -/
inductive TrackKind where
  | video
  | audio
deriving DecidableEq

/-- A `MediaStreamTrack`, identified by its kind and an id. -/
structure Track where
  kind : TrackKind
  id : Nat
deriving DecidableEq

/-- A `MediaStream` as its list of tracks. -/
structure MediaStream where
  tracks : List Track
deriving DecidableEq

/-- `stream.getVideoTracks()`. -/
def getVideoTracks (s : MediaStream) : List Track :=
  s.tracks.filter (fun t => t.kind == TrackKind.video)

/-- `stream.getAudioTracks()`. -/
def getAudioTracks (s : MediaStream) : List Track :=
  s.tracks.filter (fun t => t.kind == TrackKind.audio)

/-- The stream handed to the `MediaRecorder`:
`new MediaStream([...canvasStream.getVideoTracks(), ...dest.stream.getAudioTracks()])`. -/
def combinedStream (canvasStream destStream : MediaStream) : MediaStream :=
  { tracks := getVideoTracks canvasStream ++ getAudioTracks destStream }

/-- A `Blob` as its list of byte-array parts and its MIME type. -/
structure Blob where
  parts : List (List Nat)
  type : String
deriving DecidableEq

/-- The blob assembled in `recorder.onstop`:
`new Blob(chunks, { type: mimeType })`. -/
def onstopBlob (chunks : List (List Nat)) (mimeType : String) : Blob :=
  { parts := chunks, type := mimeType }

/-- Web Audio nodes connected in `startRecording`: the narration source
and the background-music source. -/
inductive ANode where
  | voice
  | bgm
deriving DecidableEq

/-- Connection targets: the `MediaStreamDestination` node feeding the
recorder, and `audioCtx.destination` (the speakers). -/
inductive ATarget where
  | dest
  | speakers
deriving DecidableEq

/-- The connections made for the narration source:
`voiceSource.connect(dest); voiceSource.connect(audioCtx.destination)`. -/
def voiceEdges : List (ANode × ATarget) :=
  [(ANode.voice, ATarget.dest), (ANode.voice, ATarget.speakers)]

/-- The background-music `<audio>` element's configured properties. -/
structure BgmElement where
  volume : ℚ
  loop : Bool
deriving DecidableEq

/-- The background-music block of `startRecording`: when
`useBackgroundMusic` is on, the element is created with volume 0.15 and
looping, and its source is connected to `dest` and the speakers; when
`createMediaElementSource` throws, the exception is caught and `bgm` is
reset to `null` with no connections made.  Returns the final `bgm`
binding and the connections added for it. -/
def setupBgm (useBackgroundMusic createThrows : Bool) :
    Option BgmElement × List (ANode × ATarget) :=
  if useBackgroundMusic then
    if createThrows then (none, [])
    else (some { volume := 0.15, loop := true },
      [(ANode.bgm, ATarget.dest), (ANode.bgm, ATarget.speakers)])
  else (none, [])

/-- Facts about the recording session assembled by `startRecording`
after the guards and the narration-audio load succeed: the final `bgm`
binding, the audio-graph connections, the canvas capture frame rate
(`canvas.captureStream(30)`), and the recorder MIME type. -/
structure RecSession where
  bgm : Option BgmElement
  edges : List (ANode × ATarget)
  fps : Nat
  mimeType : String
deriving DecidableEq

/-- `startRecording`, parametrised by whether the canvas ref is set, the
outcome of awaiting the narration audio's metadata (`some msg` when it
rejected with message `msg`), whether creating the background-music
source throws, the browser's MIME support predicate, and the object URL
of the recorded blob.  Returns the component state after the operation
has fully completed (for the success path, after `recorder.onstop`),
together with the recording session when one was started. -/
def startRecording (s : AppState) (canvasPresent : Bool)
    (audioLoadError : Option String) (bgmCreateThrows : Bool)
    (sup : String → Bool) (recordedUrl : String) :
    AppState × Option RecSession :=
  if !canvasPresent || s.audioUrl.isNone || s.mediaSource.isNone
      || s.productInfo.isNone then
    (s, none)
  else
    let s1 := { s with isRecording := true, recordingProgress := 0,
                       videoBlobUrl := none }
    match audioLoadError with
    | some msg => ({ s1 with error := some msg, isRecording := false }, none)
    | none =>
        let bgmSetup := setupBgm s.useBackgroundMusic bgmCreateThrows
        let session : RecSession :=
          { bgm := bgmSetup.1,
            edges := voiceEdges ++ bgmSetup.2,
            fps := 30,
            mimeType := getSupportedMimeType sup }
        ({ s1 with videoBlobUrl := some recordedUrl, isRecording := false },
         some session)

/-! ## The draw loop -/

/-- The recording duration in milliseconds:
`(audioDuration && !isNaN(audioDuration) ? audioDuration : 10) * 1000 + 1500`.
The audio element's reported duration in seconds is modelled as
`Option ℚ`, with `none` for NaN. -/
def recordDuration (audioDuration : Option ℚ) : ℚ :=
  (match audioDuration with
   | some d => if d = 0 then 10 else d
   | none => 10) * 1000 + 1500

/-- Result of one call of the `draw` animation-frame callback: the
`startTime` binding after the frame, the value passed to
`setRecordingProgress`, whether another frame was requested, and which
stop effects ran. -/
structure FrameResult where
  startTime : ℚ
  progressPct : ℚ
  continues : Bool
  recorderStopped : Bool
  audioPaused : Bool
  bgmPaused : Bool
  assetPaused : Bool
deriving DecidableEq

/-- One call of `draw(timestamp)`: set `startTime` on the first frame
(`if (!startTime) startTime = timestamp`), compute
`progress = min(elapsed / duration, 1)`, publish `progress * 100`, and
either request another animation frame (`progress < 1`) or stop the
recorder, pause the narration, pause the background music when present,
and pause the asset when it is a video. -/
def drawFrame (duration : ℚ) (bgmPresent assetIsVideo : Bool)
    (startTime timestamp : ℚ) : FrameResult :=
  let st := if startTime = 0 then timestamp else startTime
  let elapsed := timestamp - st
  let progress := min (elapsed / duration) 1
  if progress < 1 then
    { startTime := st, progressPct := progress * 100, continues := true,
      recorderStopped := false, audioPaused := false, bgmPaused := false,
      assetPaused := false }
  else
    { startTime := st, progressPct := progress * 100, continues := false,
      recorderStopped := true, audioPaused := true, bgmPaused := bgmPresent,
      assetPaused := assetIsVideo }

/-- Number of frames the draw loop consumes from a finite sequence of
animation-frame timestamps before it stops (or the sequence ends). -/
def drawLoopSteps (duration : ℚ) (bgmPresent assetIsVideo : Bool) :
    ℚ → List ℚ → Nat
  | _, [] => 0
  | st, t :: ts =>
      let r := drawFrame duration bgmPresent assetIsVideo st t
      if r.continues then
        1 + drawLoopSteps duration bgmPresent assetIsVideo r.startTime ts
      else 1

/-! ## Animation branches -/

/-- Which branch of the `if / else if` chain on
`productInfo.animationType || 'panning'` runs. -/
inductive AnimBranch where
  | panning
  | bouncing
  | vibrating
  | sliding
  | fallthrough
deriving DecidableEq

/-- Branch selection of the draw loop:
`const animType = productInfo.animationType || 'panning'` followed by
the four string comparisons; any other non-empty string matches no
branch. -/
def selectAnimBranch (animationType : Option String) : AnimBranch :=
  let animType := jsOrStr animationType "panning"
  if animType = "panning" then AnimBranch.panning
  else if animType = "bouncing" then AnimBranch.bouncing
  else if animType = "vibrating" then AnimBranch.vibrating
  else if animType = "sliding" then AnimBranch.sliding
  else AnimBranch.fallthrough

/-- The offsets `x`, `y` and scale `s` computed by a draw frame at a
given progress; `r1` and `r2` model the two `Math.random()` calls of the
vibrating branch (each in `[0, 1)`).  All three start at
`x = 0, y = 0, s = 1.1` and the branch that runs overwrites its
components. -/
noncomputable def animXYS (animationType : Option String)
    (progress r1 r2 : ℝ) : ℝ × ℝ × ℝ :=
  match selectAnimBranch animationType with
  | AnimBranch.panning => (Real.sin (progress * Real.pi) * 50, 0, 1.1)
  | AnimBranch.bouncing => (0, Real.sin (progress * Real.pi * 4) * 30, 1.1)
  | AnimBranch.vibrating => ((r1 - 0.5) * 10, (r2 - 0.5) * 10, 1.1)
  | AnimBranch.sliding => (-100 + progress * 200, 0, 1.1)
  | AnimBranch.fallthrough => (0, 0, 1.1)

/-! ## Concrete sample states (used by the witnesses) -/

/-- The component's initial state: the `useState` initialisers of `App`. -/
def initState : AppState :=
  { mediaSource := none, userProductDescription := "", manualHeadline := "",
    manualScript := "", activeScriptType := ScriptType.auto,
    voiceGender := VoiceGender.female, isAnalyzing := false,
    isGeneratingAudio := false, isRecording := false, productInfo := none,
    audioUrl := none, videoBlobUrl := none, error := none,
    recordingProgress := 0, useBackgroundMusic := true }

/-- A sample parsed analysis result. -/
def sampleProduct : ProductInfo :=
  { name := "Produto", description := "Descricao", features := ["f1"],
    script := some "roteiro", headline := some "titulo",
    animationType := some "panning" }

/-- A state in which every recording prerequisite is present. -/
def readyState : AppState :=
  { initState with
      mediaSource := some { url := "m", type := MediaType.image },
      productInfo := some sampleProduct,
      audioUrl := some "a" }

/-! ## Theorems -/

/-- C1: `generateAudio` writes a standard fixed-size 44-byte WAV header
in front of the decoded audio bytes: for a decoded byte array of length
`n` (with `36 + n` representable in 32 bits, as `DataView.setUint32`
stores values modulo `2 ^ 32`), the RIFF chunk-size field at offset 4
(little-endian) is `36 + n`, the data chunk-size field at offset 40 is
`n`, the fmt chunk declares PCM format 1, 1 channel, sample rate 24000,
byte rate 48000, block align 2 and 16 bits per sample, and the magic
words RIFF, WAVE, "fmt " and data appear big-endian at offsets 0, 8, 12
and 36. -/
theorem generateAudio_wav_header (data : List Nat)
    (h : 36 + data.length < 2 ^ 32) :
    wavFile data = wavHeader data.length ++ data ∧
    (wavHeader data.length).length = 44 ∧
    readU32BE (wavHeader data.length) 0 = 0x52494646 ∧
    readU32LE (wavHeader data.length) 4 = 36 + data.length ∧
    readU32BE (wavHeader data.length) 8 = 0x57415645 ∧
    readU32BE (wavHeader data.length) 12 = 0x666d7420 ∧
    readU16LE (wavHeader data.length) 20 = 1 ∧
    readU16LE (wavHeader data.length) 22 = 1 ∧
    readU32LE (wavHeader data.length) 24 = 24000 ∧
    readU32LE (wavHeader data.length) 28 = 48000 ∧
    readU16LE (wavHeader data.length) 32 = 2 ∧
    readU16LE (wavHeader data.length) 34 = 16 ∧
    readU32BE (wavHeader data.length) 36 = 0x64617461 ∧
    readU32LE (wavHeader data.length) 40 = data.length := by
  refine ⟨rfl, ?_, ?_, ?_, ?_, ?_, ?_, ?_, ?_, ?_, ?_, ?_, ?_, ?_⟩ <;>
    norm_num [wavHeader, u32le, u32be, u16le, readU32LE, readU16LE,
      readU32BE, List.getD] <;>
    omega

/-- C8: `handleMediaUpload` classifies an upload as video exactly when
its MIME type starts with `video/` (image otherwise, including non-media
files), resets `productInfo`, `audioUrl`, `videoBlobUrl` and `error`,
leaves the description, manual headline, manual script, voice gender and
script-type selection unchanged, and does nothing when no file is
selected. -/
theorem handleMediaUpload_classify_reset (s : AppState) (f : UploadedFile)
    (objectUrl : String) :
    handleMediaUpload s none objectUrl = s ∧
    (handleMediaUpload s (some f) objectUrl).mediaSource =
      some { url := objectUrl,
             type := if f.type.startsWith "video/" then MediaType.video
                     else MediaType.image } ∧
    ((handleMediaUpload s (some f) objectUrl).mediaSource =
        some { url := objectUrl, type := MediaType.video } ↔
      f.type.startsWith "video/" = true) ∧
    (handleMediaUpload s (some f) objectUrl).productInfo = none ∧
    (handleMediaUpload s (some f) objectUrl).audioUrl = none ∧
    (handleMediaUpload s (some f) objectUrl).videoBlobUrl = none ∧
    (handleMediaUpload s (some f) objectUrl).error = none ∧
    (handleMediaUpload s (some f) objectUrl).userProductDescription =
      s.userProductDescription ∧
    (handleMediaUpload s (some f) objectUrl).manualHeadline = s.manualHeadline ∧
    (handleMediaUpload s (some f) objectUrl).manualScript = s.manualScript ∧
    (handleMediaUpload s (some f) objectUrl).voiceGender = s.voiceGender ∧
    (handleMediaUpload s (some f) objectUrl).activeScriptType =
      s.activeScriptType := by
  refine ⟨rfl, rfl, ?_, rfl, rfl, rfl, rfl, rfl, rfl, rfl, rfl, rfl⟩
  by_cases h : f.type.startsWith "video/" <;> simp [handleMediaUpload, h]

/-- Witness for C8 at a concrete state and an `.mp4` upload. -/
theorem handleMediaUpload_classify_reset_witness :
    handleMediaUpload readyState none "u" = readyState ∧
    (handleMediaUpload readyState (some { type := "video/mp4" }) "u").mediaSource =
      some { url := "u",
             type := if ("video/mp4" : String).startsWith "video/" then MediaType.video
                     else MediaType.image } ∧
    ((handleMediaUpload readyState (some { type := "video/mp4" }) "u").mediaSource =
        some { url := "u", type := MediaType.video } ↔
      ("video/mp4" : String).startsWith "video/" = true) ∧
    (handleMediaUpload readyState (some { type := "video/mp4" }) "u").productInfo = none ∧
    (handleMediaUpload readyState (some { type := "video/mp4" }) "u").audioUrl = none ∧
    (handleMediaUpload readyState (some { type := "video/mp4" }) "u").videoBlobUrl = none ∧
    (handleMediaUpload readyState (some { type := "video/mp4" }) "u").error = none ∧
    (handleMediaUpload readyState (some { type := "video/mp4" }) "u").userProductDescription =
      readyState.userProductDescription ∧
    (handleMediaUpload readyState (some { type := "video/mp4" }) "u").manualHeadline =
      readyState.manualHeadline ∧
    (handleMediaUpload readyState (some { type := "video/mp4" }) "u").manualScript =
      readyState.manualScript ∧
    (handleMediaUpload readyState (some { type := "video/mp4" }) "u").voiceGender =
      readyState.voiceGender ∧
    (handleMediaUpload readyState (some { type := "video/mp4" }) "u").activeScriptType =
      readyState.activeScriptType :=
  handleMediaUpload_classify_reset readyState { type := "video/mp4" } "u"

/-- C4: each pipeline stage is gated on the outputs of the previous
stages: `analyzeProduct` returns with no state change when no media is
uploaded, `generateAudio` returns with no state change when the selected
script is empty or absent, and `startRecording` returns with no state
change unless the canvas, the generated audio URL, the media source and
the analysis result are all present. -/
theorem pipeline_stage_gating (sA sG sR : AppState) (oA : AnalyzeOutcome)
    (oG : AudioOutcome) (uG : String) (cp : Bool) (ale : Option String)
    (bt : Bool) (sup : String → Bool) (ru : String)
    (hA : sA.mediaSource = none)
    (hG : strFalsy (scriptToUse sG) = true)
    (hR : cp = false ∨ sR.audioUrl = none ∨ sR.mediaSource = none ∨
      sR.productInfo = none) :
    analyzeProduct sA oA = sA ∧
    generateAudio sG oG uG = sG ∧
    startRecording sR cp ale bt sup ru = (sR, none) := by
  refine ⟨?_, ?_, ?_⟩
  · simp [analyzeProduct, hA]
  · simp [generateAudio, hG]
  · rcases hR with h | h | h | h <;> simp [startRecording, h]

/-- Witness for C4 at the initial state (nothing uploaded, no script,
no recording prerequisite). -/
theorem pipeline_stage_gating_witness :
    initState.mediaSource = none ∧
    strFalsy (scriptToUse initState) = true ∧
    (false = false ∨ initState.audioUrl = none ∨
      initState.mediaSource = none ∨ initState.productInfo = none) ∧
    (analyzeProduct initState (AnalyzeOutcome.failure none) = initState ∧
     generateAudio initState AudioOutcome.failure "u" = initState ∧
     startRecording initState false none false (fun _ => false) "r" =
       (initState, none)) :=
  ⟨by decide, by decide, Or.inl rfl,
   pipeline_stage_gating initState initState initState
     (AnalyzeOutcome.failure none) AudioOutcome.failure "u" false none false
     (fun _ => false) "r" (by decide) (by decide) (Or.inl rfl)⟩

/-- C7: every busy flag is cleared on both success and failure:
`analyzeProduct` and `generateAudio` clear their busy flags in their
`finally` blocks on every exit path past the guard, and `startRecording`
clears `isRecording` both when the narration audio fails to load (also
storing the error message) and in the recorder's `onstop` handler. -/
theorem busy_flags_cleared (sA sG sR : AppState) (oA : AnalyzeOutcome)
    (oG : AudioOutcome) (uG : String) (ale : Option String) (bt : Bool)
    (sup : String → Bool) (ru : String) (m : String)
    (hA : sA.mediaSource.isSome = true)
    (hG : strFalsy (scriptToUse sG) = false)
    (hR1 : sR.audioUrl.isSome = true) (hR2 : sR.mediaSource.isSome = true)
    (hR3 : sR.productInfo.isSome = true) :
    (analyzeProduct sA oA).isAnalyzing = false ∧
    (generateAudio sG oG uG).isGeneratingAudio = false ∧
    (startRecording sR true ale bt sup ru).1.isRecording = false ∧
    (startRecording sR true (some m) bt sup ru).1.error = some m := by
  obtain ⟨a, ha⟩ := Option.isSome_iff_exists.mp hA
  obtain ⟨u1, hu1⟩ := Option.isSome_iff_exists.mp hR1
  obtain ⟨m1, hm1⟩ := Option.isSome_iff_exists.mp hR2
  obtain ⟨p1, hp1⟩ := Option.isSome_iff_exists.mp hR3
  refine ⟨?_, ?_, ?_, ?_⟩
  · cases oA <;> simp [analyzeProduct, ha]
  · cases oG with
    | success b => cases b <;> simp [generateAudio, hG]
    | failure => simp [generateAudio, hG]
  · cases ale <;> simp [startRecording, hu1, hm1, hp1]
  · simp [startRecording, hu1, hm1, hp1]

/-- Witness for C7 at the ready state, with a failing analysis, a reply
with no audio bytes, and a narration-audio load failure. -/
theorem busy_flags_cleared_witness :
    readyState.mediaSource.isSome = true ∧
    strFalsy (scriptToUse readyState) = false ∧
    readyState.audioUrl.isSome = true ∧
    readyState.mediaSource.isSome = true ∧
    readyState.productInfo.isSome = true ∧
    ((analyzeProduct readyState (AnalyzeOutcome.failure none)).isAnalyzing = false ∧
     (generateAudio readyState (AudioOutcome.success none) "u").isGeneratingAudio = false ∧
     (startRecording readyState true none false (fun _ => false) "r").1.isRecording = false ∧
     (startRecording readyState true (some "Tempo esgotado ao carregar áudio.") false
        (fun _ => false) "r").1.error = some "Tempo esgotado ao carregar áudio.") :=
  ⟨by decide, by decide, by decide, by decide, by decide,
   busy_flags_cleared readyState readyState readyState
     (AnalyzeOutcome.failure none) (AudioOutcome.success none) "u" none false
     (fun _ => false) "r" "Tempo esgotado ao carregar áudio."
     (by decide) (by decide) (by decide) (by decide) (by decide)⟩

/-- Witness for C1 at the concrete decoded byte array `[1, 2, 3]`. -/
theorem generateAudio_wav_header_witness :
    36 + ([1, 2, 3] : List Nat).length < 2 ^ 32 ∧
    (wavFile [1, 2, 3] = wavHeader ([1, 2, 3] : List Nat).length ++ [1, 2, 3] ∧
    (wavHeader ([1, 2, 3] : List Nat).length).length = 44 ∧
    readU32BE (wavHeader ([1, 2, 3] : List Nat).length) 0 = 0x52494646 ∧
    readU32LE (wavHeader ([1, 2, 3] : List Nat).length) 4 = 36 + ([1, 2, 3] : List Nat).length ∧
    readU32BE (wavHeader ([1, 2, 3] : List Nat).length) 8 = 0x57415645 ∧
    readU32BE (wavHeader ([1, 2, 3] : List Nat).length) 12 = 0x666d7420 ∧
    readU16LE (wavHeader ([1, 2, 3] : List Nat).length) 20 = 1 ∧
    readU16LE (wavHeader ([1, 2, 3] : List Nat).length) 22 = 1 ∧
    readU32LE (wavHeader ([1, 2, 3] : List Nat).length) 24 = 24000 ∧
    readU32LE (wavHeader ([1, 2, 3] : List Nat).length) 28 = 48000 ∧
    readU16LE (wavHeader ([1, 2, 3] : List Nat).length) 32 = 2 ∧
    readU16LE (wavHeader ([1, 2, 3] : List Nat).length) 34 = 16 ∧
    readU32BE (wavHeader ([1, 2, 3] : List Nat).length) 36 = 0x64617461 ∧
    readU32LE (wavHeader ([1, 2, 3] : List Nat).length) 40 = ([1, 2, 3] : List Nat).length) :=
  ⟨by norm_num, generateAudio_wav_header [1, 2, 3] (by norm_num)⟩

/-- The candidate loop returns the first acceptable candidate in the
sense of `List.find?`. -/
lemma firstSupported_eq_findD (sup : String → Bool) (l : List String) :
    firstSupported sup l = (l.find? sup).getD "" := by
  induction l with
  | nil => rfl
  | cons t ts ih =>
      by_cases h : sup t
      · simp [firstSupported, h, List.find?_cons_of_pos]
      · simp [firstSupported, h, List.find?_cons_of_neg, ih]

/-- A non-empty result of the candidate loop is an accepted candidate. -/
lemma sup_firstSupported (sup : String → Bool) (l : List String)
    (h : firstSupported sup l ≠ "") : sup (firstSupported sup l) = true := by
  induction l with
  | nil => simp [firstSupported] at h
  | cons t ts ih =>
      by_cases ht : sup t
      · simp [firstSupported, ht]
      · simp only [firstSupported, ht, if_false, Bool.false_eq_true] at h ⊢
        exact ih h

/-- C10: `getSupportedMimeType` returns the first element of the ordered
candidate list accepted by `MediaRecorder.isTypeSupported` and `""` when
none is accepted; a non-empty result is always supported, and no
lower-priority candidate is chosen while a higher-priority one is
supported. -/
theorem getSupportedMimeType_priority (sup : String → Bool) (i j : Nat)
    (hij : i < j) (hj : j < 4) :
    getSupportedMimeType sup = (mimeCandidates.find? sup).getD "" ∧
    (getSupportedMimeType sup ≠ "" →
      sup (getSupportedMimeType sup) = true) ∧
    (sup (mimeCandidates.getD i "") = true →
      getSupportedMimeType sup ≠ mimeCandidates.getD j "") ∧
    ((sup "video/webm;codecs=vp9,opus" = false ∧
      sup "video/webm;codecs=vp8,opus" = false ∧
      sup "video/webm" = false ∧ sup "video/mp4" = false) →
      getSupportedMimeType sup = "") := by
  refine ⟨firstSupported_eq_findD sup mimeCandidates,
    sup_firstSupported sup mimeCandidates, ?_, ?_⟩
  · intro hi
    interval_cases j <;> interval_cases i <;>
      revert hi <;>
      by_cases h0 : sup "video/webm;codecs=vp9,opus" <;>
      by_cases h1 : sup "video/webm;codecs=vp8,opus" <;>
      by_cases h2 : sup "video/webm" <;>
      by_cases h3 : sup "video/mp4" <;>
      simp [getSupportedMimeType, firstSupported, mimeCandidates,
        h0, h1, h2, h3]
  · rintro ⟨h0, h1, h2, h3⟩
    simp [getSupportedMimeType, firstSupported, mimeCandidates,
      h0, h1, h2, h3]

/-- Witness for C10 with a predicate accepting only `video/webm`
(priority index 2), at lower-priority index `j = 3`. -/
theorem getSupportedMimeType_priority_witness :
    (2 : Nat) < 3 ∧ (3 : Nat) < 4 ∧
    (getSupportedMimeType (fun t => t == "video/webm") =
      (mimeCandidates.find? (fun t => t == "video/webm")).getD "" ∧
    (getSupportedMimeType (fun t => t == "video/webm") ≠ "" →
      (fun t => t == "video/webm") (getSupportedMimeType (fun t => t == "video/webm")) = true) ∧
    ((fun t => t == "video/webm") (mimeCandidates.getD 2 "") = true →
      getSupportedMimeType (fun t => t == "video/webm") ≠ mimeCandidates.getD 3 "") ∧
    (((fun t => t == "video/webm") "video/webm;codecs=vp9,opus" = false ∧
      (fun t => t == "video/webm") "video/webm;codecs=vp8,opus" = false ∧
      (fun t => t == "video/webm") "video/webm" = false ∧
      (fun t => t == "video/webm") "video/mp4" = false) →
      getSupportedMimeType (fun t => t == "video/webm") = "")) :=
  ⟨by decide, by decide,
   getSupportedMimeType_priority (fun t => t == "video/webm") 2 3
     (by decide) (by decide)⟩

/-- The value a draw frame passes to `setRecordingProgress`. -/
lemma drawFrame_progressPct (duration : ℚ) (b v : Bool) (st t : ℚ) :
    (drawFrame duration b v st t).progressPct =
      min ((t - (if st = 0 then t else st)) / duration) 1 * 100 := by
  unfold drawFrame
  split <;> dsimp only <;> split <;> rfl

/-- A draw frame requests another animation frame exactly while
`elapsed / duration < 1`. -/
lemma drawFrame_continues (duration : ℚ) (b v : Bool) (st t : ℚ) :
    ((drawFrame duration b v st t).continues = true ↔
      (t - (if st = 0 then t else st)) / duration < 1) := by
  unfold drawFrame
  split <;> dsimp only <;> split <;> rename_i hp <;>
    simp [min_lt_iff] at hp ⊢ <;> exact hp

/-- The stop effects of the frame on which progress reaches 1. -/
lemma drawFrame_stops (duration : ℚ) (b v : Bool) (st t : ℚ)
    (h : ¬ (t - (if st = 0 then t else st)) / duration < 1) :
    (drawFrame duration b v st t).continues = false ∧
    (drawFrame duration b v st t).recorderStopped = true ∧
    (drawFrame duration b v st t).audioPaused = true ∧
    (drawFrame duration b v st t).bgmPaused = b ∧
    (drawFrame duration b v st t).assetPaused = v := by
  have hm : ¬ min ((t - (if st = 0 then t else st)) / duration) 1 < 1 := by
    simp [min_lt_iff, h]
  unfold drawFrame
  split at hm <;> dsimp only <;> simp_all

/-- A continuing frame runs no stop effect. -/
lemma drawFrame_goes (duration : ℚ) (b v : Bool) (st t : ℚ)
    (h : (t - (if st = 0 then t else st)) / duration < 1) :
    (drawFrame duration b v st t).continues = true ∧
    (drawFrame duration b v st t).recorderStopped = false ∧
    (drawFrame duration b v st t).audioPaused = false ∧
    (drawFrame duration b v st t).bgmPaused = false ∧
    (drawFrame duration b v st t).assetPaused = false := by
  have hm : min ((t - (if st = 0 then t else st)) / duration) 1 < 1 :=
    min_lt_iff.mpr (Or.inl h)
  unfold drawFrame
  split at hm <;> dsimp only <;> simp_all

/-- The draw loop consumes at most as many frames as the timestamp
sequence offers: it terminates on every finite timestamp sequence. -/
lemma drawLoopSteps_le (duration : ℚ) (b v : Bool) (st : ℚ)
    (ts : List ℚ) : drawLoopSteps duration b v st ts ≤ ts.length := by
  induction ts generalizing st with
  | nil => simp [drawLoopSteps]
  | cons t ts ih =>
      have h := ih (drawFrame duration b v st t).startTime
      simp only [drawLoopSteps, List.length_cons]
      split <;> omega

/-- C2: the recording timing loop uses a total duration of
`audioDuration * 1000 + 1500` milliseconds when the narration audio
reports a truthy, non-NaN duration and `10 * 1000 + 1500 = 11500`
milliseconds otherwise; a draw frame requests another animation frame
exactly while `elapsed / duration < 1`, the first frame reaching
progress 1 stops the recorder, pauses the narration, pauses the
background music when present and pauses the asset when it is a video (a
continuing frame runs no stop effect), and the loop terminates on every
finite timestamp sequence. -/
theorem recording_loop_duration_stop (d : ℚ) (hd : d ≠ 0)
    (dur dur2 dur3 : ℚ) (b v b2 v2 b3 v3 : Bool)
    (st t st2 t2 st3 t3 : ℚ) (ts : List ℚ)
    (h2 : ¬ (t2 - (if st2 = 0 then t2 else st2)) / dur2 < 1)
    (h3 : (t3 - (if st3 = 0 then t3 else st3)) / dur3 < 1) :
    recordDuration (some d) = d * 1000 + 1500 ∧
    recordDuration none = 11500 ∧
    recordDuration (some 0) = 11500 ∧
    ((drawFrame dur b v st t).continues = true ↔
      (t - (if st = 0 then t else st)) / dur < 1) ∧
    ((drawFrame dur2 b2 v2 st2 t2).continues = false ∧
     (drawFrame dur2 b2 v2 st2 t2).recorderStopped = true ∧
     (drawFrame dur2 b2 v2 st2 t2).audioPaused = true ∧
     (drawFrame dur2 b2 v2 st2 t2).bgmPaused = b2 ∧
     (drawFrame dur2 b2 v2 st2 t2).assetPaused = v2) ∧
    ((drawFrame dur3 b3 v3 st3 t3).continues = true ∧
     (drawFrame dur3 b3 v3 st3 t3).recorderStopped = false ∧
     (drawFrame dur3 b3 v3 st3 t3).audioPaused = false ∧
     (drawFrame dur3 b3 v3 st3 t3).bgmPaused = false ∧
     (drawFrame dur3 b3 v3 st3 t3).assetPaused = false) ∧
    drawLoopSteps dur b v st ts ≤ ts.length := by
  exact ⟨by simp [recordDuration, hd], by norm_num [recordDuration],
    by norm_num [recordDuration], drawFrame_continues dur b v st t,
    drawFrame_stops dur2 b2 v2 st2 t2 h2, drawFrame_goes dur3 b3 v3 st3 t3 h3,
    drawLoopSteps_le dur b v st ts⟩

/-- Witness for C2 at a 2-second narration, a stopping frame at
timestamp 2000 and a continuing frame at timestamp 500 (duration 1000,
start time 1). -/
theorem recording_loop_duration_stop_witness :
    (2 : ℚ) ≠ 0 ∧
    ¬ ((2000 : ℚ) - (if (1 : ℚ) = 0 then (2000 : ℚ) else 1)) / 1000 < 1 ∧
    ((500 : ℚ) - (if (1 : ℚ) = 0 then (500 : ℚ) else 1)) / 1000 < 1 ∧
    (recordDuration (some 2) = 2 * 1000 + 1500 ∧
    recordDuration none = 11500 ∧
    recordDuration (some 0) = 11500 ∧
    ((drawFrame 1000 true true 1 500).continues = true ↔
      ((500 : ℚ) - (if (1 : ℚ) = 0 then (500 : ℚ) else 1)) / 1000 < 1) ∧
    ((drawFrame 1000 true false 1 2000).continues = false ∧
     (drawFrame 1000 true false 1 2000).recorderStopped = true ∧
     (drawFrame 1000 true false 1 2000).audioPaused = true ∧
     (drawFrame 1000 true false 1 2000).bgmPaused = true ∧
     (drawFrame 1000 true false 1 2000).assetPaused = false) ∧
    ((drawFrame 1000 false true 1 500).continues = true ∧
     (drawFrame 1000 false true 1 500).recorderStopped = false ∧
     (drawFrame 1000 false true 1 500).audioPaused = false ∧
     (drawFrame 1000 false true 1 500).bgmPaused = false ∧
     (drawFrame 1000 false true 1 500).assetPaused = false) ∧
    drawLoopSteps 1000 true true 1 [500, 2000] ≤ ([500, 2000] : List ℚ).length) :=
  ⟨by norm_num, by norm_num, by norm_num,
   recording_loop_duration_stop 2 (by norm_num) 1000 1000 1000 true true true
     false false true 1 500 1 2000 1 500 [500, 2000]
     (by norm_num) (by norm_num)⟩

/-- C9: the displayed recording progress is always in range and
nondecreasing: on the first frame (`startTime` still 0) it is 0; on
later frames of one recording (positive `startTime`, timestamps at or
after it), `min(elapsed / duration, 1) * 100` lies in `[0, 100]` and is
monotone in the timestamp. -/
theorem recording_progress_in_range (d st t1 t2 tAny : ℚ) (b v : Bool)
    (hd : 0 < d) (hst : 0 < st) (h1 : st ≤ t1) (h12 : t1 ≤ t2) :
    (drawFrame d b v 0 tAny).progressPct = 0 ∧
    0 ≤ (drawFrame d b v st t1).progressPct ∧
    (drawFrame d b v st t1).progressPct ≤ 100 ∧
    (drawFrame d b v st t1).progressPct ≤ (drawFrame d b v st t2).progressPct := by
  have hst0 : st ≠ 0 := ne_of_gt hst
  have he1 : (0 : ℚ) ≤ (t1 - st) / d := div_nonneg (by linarith) (le_of_lt hd)
  refine ⟨?_, ?_, ?_, ?_⟩
  · simp [drawFrame_progressPct]
  · rw [drawFrame_progressPct, if_neg hst0]
    have : (0 : ℚ) ≤ min ((t1 - st) / d) 1 := le_min he1 (by norm_num)
    nlinarith
  · rw [drawFrame_progressPct, if_neg hst0]
    have : min ((t1 - st) / d) 1 ≤ 1 := min_le_right _ _
    nlinarith [le_min he1 (show (0:ℚ) ≤ 1 by norm_num)]
  · simp only [drawFrame_progressPct, if_neg hst0]
    have hdiv : (t1 - st) / d ≤ (t2 - st) / d :=
      div_le_div_of_nonneg_right (by linarith) (le_of_lt hd)
    have hmin : min ((t1 - st) / d) 1 ≤ min ((t2 - st) / d) 1 :=
      min_le_min hdiv (le_refl 1)
    linarith [hmin]

/-- Witness for C9 at duration 1000, start time 1, timestamps 1 and 501. -/
theorem recording_progress_in_range_witness :
    (0 : ℚ) < 1000 ∧ (0 : ℚ) < 1 ∧ (1 : ℚ) ≤ 1 ∧ (1 : ℚ) ≤ 501 ∧
    ((drawFrame 1000 true true 0 7).progressPct = 0 ∧
     0 ≤ (drawFrame 1000 true true 1 1).progressPct ∧
     (drawFrame 1000 true true 1 1).progressPct ≤ 100 ∧
     (drawFrame 1000 true true 1 1).progressPct ≤
       (drawFrame 1000 true true 1 501).progressPct) :=
  ⟨by norm_num, by norm_num, by norm_num, by norm_num,
   recording_progress_in_range 1000 1 1 501 7 true true
     (by norm_num) (by norm_num) (by norm_num) (by norm_num)⟩

/-- C5: `startRecording` multiplexes exactly one recorded stream: the
stream handed to the `MediaRecorder` holds precisely the video tracks of
the canvas capture stream (captured at 30 fps) followed by the audio
tracks of the `AudioContext` destination node, into which the narration
source (and, when enabled and not failing, the background-music source)
is connected; the recorded blob is assembled from the recorder's data
chunks with the single chosen MIME type. -/
theorem recording_stream_multiplex (c dstr : MediaStream) (tr : Track)
    (sR : AppState) (bt : Bool) (sup : String → Bool) (ru : String)
    (chunks : List (List Nat)) (mime : String)
    (hR1 : sR.audioUrl.isSome = true) (hR2 : sR.mediaSource.isSome = true)
    (hR3 : sR.productInfo.isSome = true) :
    (tr ∈ (combinedStream c dstr).tracks ↔
      ((tr ∈ c.tracks ∧ tr.kind = TrackKind.video) ∨
       (tr ∈ dstr.tracks ∧ tr.kind = TrackKind.audio))) ∧
    (startRecording sR true none bt sup ru).2 =
      some { bgm := (setupBgm sR.useBackgroundMusic bt).1,
             edges := voiceEdges ++ (setupBgm sR.useBackgroundMusic bt).2,
             fps := 30, mimeType := getSupportedMimeType sup } ∧
    (ANode.voice, ATarget.dest) ∈ voiceEdges ∧
    onstopBlob chunks mime = { parts := chunks, type := mime } := by
  obtain ⟨u1, hu1⟩ := Option.isSome_iff_exists.mp hR1
  obtain ⟨m1, hm1⟩ := Option.isSome_iff_exists.mp hR2
  obtain ⟨p1, hp1⟩ := Option.isSome_iff_exists.mp hR3
  refine ⟨?_, ?_, ?_, rfl⟩
  · simp [combinedStream, getVideoTracks, getAudioTracks, List.mem_append,
      List.mem_filter]
  · simp [startRecording, hu1, hm1, hp1]
  · simp [voiceEdges]

/-- Witness for C5 at a two-track canvas stream, a mixed destination
stream and the ready state. -/
theorem recording_stream_multiplex_witness :
    readyState.audioUrl.isSome = true ∧
    readyState.mediaSource.isSome = true ∧
    readyState.productInfo.isSome = true ∧
    ((({ kind := TrackKind.video, id := 0 } : Track) ∈
        (combinedStream { tracks := [{ kind := TrackKind.video, id := 0 }] }
          { tracks := [{ kind := TrackKind.audio, id := 1 }] }).tracks ↔
      ((({ kind := TrackKind.video, id := 0 } : Track) ∈
          [({ kind := TrackKind.video, id := 0 } : Track)] ∧
        ({ kind := TrackKind.video, id := 0 } : Track).kind = TrackKind.video) ∨
       (({ kind := TrackKind.video, id := 0 } : Track) ∈
          [({ kind := TrackKind.audio, id := 1 } : Track)] ∧
        ({ kind := TrackKind.video, id := 0 } : Track).kind = TrackKind.audio))) ∧
    (startRecording readyState true none false (fun _ => false) "r").2 =
      some { bgm := (setupBgm readyState.useBackgroundMusic false).1,
             edges := voiceEdges ++ (setupBgm readyState.useBackgroundMusic false).2,
             fps := 30, mimeType := getSupportedMimeType (fun _ => false) } ∧
    (ANode.voice, ATarget.dest) ∈ voiceEdges ∧
    onstopBlob [[1, 2]] "video/webm" =
      { parts := [[1, 2]], type := "video/webm" }) :=
  ⟨by decide, by decide, by decide,
   recording_stream_multiplex
     { tracks := [{ kind := TrackKind.video, id := 0 }] }
     { tracks := [{ kind := TrackKind.audio, id := 1 }] }
     { kind := TrackKind.video, id := 0 } readyState false (fun _ => false)
     "r" [[1, 2]] "video/webm" (by decide) (by decide) (by decide)⟩

/-- C6: background music is mixed in only when `useBackgroundMusic` is
enabled, then at volume 0.15 with looping; a throw while creating the
background-music source is caught, `bgm` is reset to `null`, and the
recording proceeds with narration only — the failure neither aborts
`startRecording` nor touches the error state. -/
theorem background_music_mixing (sR : AppState) (bt : Bool)
    (sup : String → Bool) (ru : String)
    (hR1 : sR.audioUrl.isSome = true) (hR2 : sR.mediaSource.isSome = true)
    (hR3 : sR.productInfo.isSome = true)
    (hBgm : sR.useBackgroundMusic = true) :
    setupBgm true false = (some { volume := 0.15, loop := true },
      [(ANode.bgm, ATarget.dest), (ANode.bgm, ATarget.speakers)]) ∧
    setupBgm true true = (none, []) ∧
    setupBgm false bt = (none, []) ∧
    (startRecording sR true none true sup ru).1.error = sR.error ∧
    (startRecording sR true none true sup ru).1.videoBlobUrl = some ru ∧
    (startRecording sR true none true sup ru).1.isRecording = false ∧
    (startRecording sR true none true sup ru).2 =
      some { bgm := none, edges := voiceEdges, fps := 30,
             mimeType := getSupportedMimeType sup } ∧
    (startRecording { sR with useBackgroundMusic := false } true none bt
        sup ru).2 =
      some { bgm := none, edges := voiceEdges, fps := 30,
             mimeType := getSupportedMimeType sup } := by
  obtain ⟨u1, hu1⟩ := Option.isSome_iff_exists.mp hR1
  obtain ⟨m1, hm1⟩ := Option.isSome_iff_exists.mp hR2
  obtain ⟨p1, hp1⟩ := Option.isSome_iff_exists.mp hR3
  refine ⟨rfl, rfl, rfl, ?_, ?_, ?_, ?_, ?_⟩ <;>
    simp [startRecording, setupBgm, hu1, hm1, hp1, hBgm, voiceEdges]

/-- Witness for C6 at the ready state (background music enabled there)
with the source creation throwing. -/
theorem background_music_mixing_witness :
    readyState.audioUrl.isSome = true ∧
    readyState.mediaSource.isSome = true ∧
    readyState.productInfo.isSome = true ∧
    readyState.useBackgroundMusic = true ∧
    (setupBgm true false = (some { volume := 0.15, loop := true },
      [(ANode.bgm, ATarget.dest), (ANode.bgm, ATarget.speakers)]) ∧
    setupBgm true true = (none, []) ∧
    setupBgm false false = (none, []) ∧
    (startRecording readyState true none true (fun _ => false) "r").1.error =
      readyState.error ∧
    (startRecording readyState true none true (fun _ => false) "r").1.videoBlobUrl =
      some "r" ∧
    (startRecording readyState true none true (fun _ => false) "r").1.isRecording =
      false ∧
    (startRecording readyState true none true (fun _ => false) "r").2 =
      some { bgm := none, edges := voiceEdges, fps := 30,
             mimeType := getSupportedMimeType (fun _ => false) } ∧
    (startRecording { readyState with useBackgroundMusic := false } true none
        false (fun _ => false) "r").2 =
      some { bgm := none, edges := voiceEdges, fps := 30,
             mimeType := getSupportedMimeType (fun _ => false) }) :=
  ⟨by decide, by decide, by decide, by decide,
   background_music_mixing readyState false (fun _ => false) "r"
     (by decide) (by decide) (by decide) (by decide)⟩

/-- C3 counterexample: the claim as stated is false on the code.  First,
an unrecognized non-empty `animationType` (here `"zooming"`) is not
treated as `'panning'`: at progress 1/2 the code leaves `x = 0` while
the panning formula gives `sin(π/2) * 50 = 50`.  Second, in the
vibrating branch `Math.random()` may return 0, where
`(0 - 0.5) * 10 = -5` lies outside the claimed open interval (-5, 5). -/
theorem draw_animation_counterexample :
    (animXYS (some "zooming") (1 / 2) 0 0).1 ≠ Real.sin (1 / 2 * Real.pi) * 50 ∧
    ¬ (-5 < (animXYS (some "vibrating") (1 / 2) 0 0).1) := by
  constructor
  · have hb : selectAnimBranch (some "zooming") = AnimBranch.fallthrough := by
      decide
    have h1 : (animXYS (some "zooming") (1 / 2) 0 0).1 = 0 := by
      simp [animXYS, hb]
    rw [h1]
    have h2 : (1 / 2 : ℝ) * Real.pi = Real.pi / 2 := by ring
    rw [h2, Real.sin_pi_div_two]
    norm_num
  · have hb : selectAnimBranch (some "vibrating") = AnimBranch.vibrating := by
      decide
    have h1 : (animXYS (some "vibrating") (1 / 2) 0 0).1 = -5 := by
      simp [animXYS, hb]
      norm_num
    rw [h1]
    simp

/-- C3 (amended): the draw loop has exactly four animation branches
selected by `productInfo.animationType`, with a missing (absent or
empty) `animationType` treated as `'panning'` and an unrecognized
non-empty one matching no branch, leaving `x = 0` and `y = 0`.  For
progress `p` in `[0, 1]`: panning sets `x = sin(pπ) * 50 ∈ [0, 50]` and
`y = 0`; bouncing sets `y = sin(pπ·4) * 30 ∈ [-30, 30]` and `x = 0`;
sliding sets `x = -100 + p·200` (from -100 at `p = 0` to 100 at
`p = 1`) and `y = 0`; vibrating sets `x` and `y` to values in `[-5, 5)`
(the lower bound is attained when `Math.random()` returns 0).  The
scale factor is 1.1 in every branch. -/
theorem draw_animation_branches (animationType : Option String)
    (t : String) (p r1 r2 : ℝ)
    (hp0 : 0 ≤ p) (hp1 : p ≤ 1)
    (hr10 : 0 ≤ r1) (hr11 : r1 < 1) (hr20 : 0 ≤ r2) (hr21 : r2 < 1)
    (ht0 : t ≠ "") (ht1 : t ≠ "panning") (ht2 : t ≠ "bouncing")
    (ht3 : t ≠ "vibrating") (ht4 : t ≠ "sliding") :
    animXYS none p r1 r2 = animXYS (some "panning") p r1 r2 ∧
    animXYS (some "") p r1 r2 = animXYS (some "panning") p r1 r2 ∧
    animXYS (some "panning") p r1 r2 = (Real.sin (p * Real.pi) * 50, 0, 1.1) ∧
    0 ≤ Real.sin (p * Real.pi) * 50 ∧
    Real.sin (p * Real.pi) * 50 ≤ 50 ∧
    animXYS (some "bouncing") p r1 r2 =
      (0, Real.sin (p * Real.pi * 4) * 30, 1.1) ∧
    -30 ≤ Real.sin (p * Real.pi * 4) * 30 ∧
    Real.sin (p * Real.pi * 4) * 30 ≤ 30 ∧
    animXYS (some "sliding") p r1 r2 = (-100 + p * 200, 0, 1.1) ∧
    (animXYS (some "sliding") 0 r1 r2).1 = -100 ∧
    (animXYS (some "sliding") 1 r1 r2).1 = 100 ∧
    animXYS (some "vibrating") p r1 r2 =
      ((r1 - 0.5) * 10, (r2 - 0.5) * 10, 1.1) ∧
    -5 ≤ (r1 - 0.5) * 10 ∧ (r1 - 0.5) * 10 < 5 ∧
    -5 ≤ (r2 - 0.5) * 10 ∧ (r2 - 0.5) * 10 < 5 ∧
    animXYS (some t) p r1 r2 = (0, 0, 1.1) ∧
    (animXYS animationType p r1 r2).2.2 = 1.1 := by
  have hsin0 : 0 ≤ Real.sin (p * Real.pi) := by
    apply Real.sin_nonneg_of_nonneg_of_le_pi
    · positivity
    · nlinarith [Real.pi_pos]
  have hsin1 : Real.sin (p * Real.pi) ≤ 1 := Real.sin_le_one _
  have hb1 : -1 ≤ Real.sin (p * Real.pi * 4) := Real.neg_one_le_sin _
  have hb2 : Real.sin (p * Real.pi * 4) ≤ 1 := Real.sin_le_one _
  have hsl : selectAnimBranch (some "sliding") = AnimBranch.sliding := by
    decide
  have hft : selectAnimBranch (some t) = AnimBranch.fallthrough := by
    simp [selectAnimBranch, jsOrStr, ht0, ht1, ht2, ht3, ht4]
  refine ⟨rfl, rfl, rfl, by nlinarith, by nlinarith, rfl, by nlinarith,
    by nlinarith, rfl, ?_, ?_, rfl, by nlinarith, by nlinarith, by nlinarith,
    by nlinarith, ?_, ?_⟩
  · simp [animXYS, hsl]
  · simp [animXYS, hsl]
    norm_num
  · simp [animXYS, hft]
  · unfold animXYS
    cases selectAnimBranch animationType <;> rfl

/-- Witness for C3 at `p = 0`, both random draws 0, and the
unrecognized animation type `"zooming"`. -/
theorem draw_animation_branches_witness :
    (0 : ℝ) ≤ 0 ∧ (0 : ℝ) ≤ 1 ∧ (0 : ℝ) < 1 ∧
    ("zooming" : String) ≠ "" ∧ ("zooming" : String) ≠ "panning" ∧
    (animXYS none 0 0 0 = animXYS (some "panning") 0 0 0 ∧
    animXYS (some "") 0 0 0 = animXYS (some "panning") 0 0 0 ∧
    animXYS (some "panning") 0 0 0 = (Real.sin (0 * Real.pi) * 50, 0, 1.1) ∧
    0 ≤ Real.sin (0 * Real.pi) * 50 ∧
    Real.sin (0 * Real.pi) * 50 ≤ 50 ∧
    animXYS (some "bouncing") 0 0 0 =
      (0, Real.sin (0 * Real.pi * 4) * 30, 1.1) ∧
    -30 ≤ Real.sin (0 * Real.pi * 4) * 30 ∧
    Real.sin (0 * Real.pi * 4) * 30 ≤ 30 ∧
    animXYS (some "sliding") 0 0 0 = (-100 + 0 * 200, 0, 1.1) ∧
    (animXYS (some "sliding") 0 0 0).1 = -100 ∧
    (animXYS (some "sliding") 1 0 0).1 = 100 ∧
    animXYS (some "vibrating") 0 0 0 =
      (((0 : ℝ) - 0.5) * 10, ((0 : ℝ) - 0.5) * 10, 1.1) ∧
    -5 ≤ ((0 : ℝ) - 0.5) * 10 ∧ ((0 : ℝ) - 0.5) * 10 < 5 ∧
    -5 ≤ ((0 : ℝ) - 0.5) * 10 ∧ ((0 : ℝ) - 0.5) * 10 < 5 ∧
    animXYS (some "zooming") 0 0 0 = (0, 0, 1.1) ∧
    (animXYS none 0 0 0).2.2 = 1.1) :=
  ⟨by norm_num, by norm_num, by norm_num, by decide, by decide,
   draw_animation_branches none "zooming" 0 0 0 (by norm_num) (by norm_num)
     (by norm_num) (by norm_num) (by norm_num) (by norm_num) (by decide)
     (by decide) (by decide) (by decide) (by decide)⟩

end ShopeeStoryMaker
